import Mathlib

/-
  Verification of the SihmaSi metadata tool (sihmasi.py).

  Strings from the Python program are modelled as `List Char`.  Python string
  operations used by the program are embedded as executable functions:
  `lower` as a map of `Char.toLower`, `strip` as `pyStrip`, the substring test
  `in` as `containsSub`, `split` on a separator as `pySplit`, and
  `split(sep, 1)` as the pair `beforeFirstSep` / `afterFirstSep`.
-/

/-- Python whitespace characters stripped by str.strip with no arguments
(space, tab, newline, carriage return, vertical tab, form feed). -/
def pyIsSpace (c : Char) : Bool :=
  c = ' ' || c = '\t' || c = '\n' || c = '\r' || c = Char.ofNat 11 || c = Char.ofNat 12

/-- Embedding of Python str.strip with no arguments. -/
def pyStrip (l : List Char) : List Char :=
  ((l.dropWhile pyIsSpace).reverse.dropWhile pyIsSpace).reverse

/-- Embedding of Python str.lower restricted to the ASCII range used here. -/
def pyLower (l : List Char) : List Char :=
  l.map Char.toLower

/-- Membership test of a single character in a string, Python c in s. -/
def containsChar : List Char → Char → Bool
  | [], _ => false
  | a :: as, c => if a = c then true else containsChar as c

/-- Boolean prefix test on character lists, Python str.startswith. -/
def startsWithL : List Char → List Char → Bool
  | [], _ => true
  | _ :: _, [] => false
  | a :: as, b :: bs => if a = b then startsWithL as bs else false

/-- Embedding of the Python substring test needle in hay. -/
def containsSub (needle : List Char) : List Char → Bool
  | [] => needle.isEmpty
  | c :: rest => startsWithL needle (c :: rest) || containsSub needle rest

/-- Embedding of Python any(x in hay for x in ws). -/
def containsAny (ws : List (List Char)) (hay : List Char) : Bool :=
  ws.any (fun w => containsSub w hay)

/-- Embedding of Python text.split(sep): the split never drops empty pieces. -/
def pySplit (sep : Char) : List Char → List (List Char)
  | [] => [[]]
  | c :: cs =>
      if c = sep then [] :: pySplit sep cs
      else
        match pySplit sep cs with
        | [] => [[c]]
        | l :: ls => (c :: l) :: ls

/-- Part of line.split(sep, 1): the piece before the first separator. -/
def beforeFirstSep (sep : Char) : List Char → List Char
  | [] => []
  | c :: cs => if c = sep then [] else c :: beforeFirstSep sep cs

/-- Part of line.split(sep, 1): the piece after the first separator. -/
def afterFirstSep (sep : Char) : List Char → List Char
  | [] => []
  | c :: cs => if c = sep then cs else afterFirstSep sep cs

/-- The local variable line_lower of extract_critical_info. -/
def lineLower (line : List Char) : List Char := pyLower line

/-- The local variable value of extract_critical_info:
value equals parts one strip applied after splitting once on the colon. -/
def lineValue (line : List Char) : List Char :=
  pyStrip (afterFirstSep ':' line)

/-- Keyword used by the GPS bucket rule and the gps critical rules. -/
def kwGps : List Char := "gps".data

/-- Camera bucket keywords of organize_metadata. -/
def cameraWords : List (List Char) :=
  ["camera".data, "lens".data, "flash".data, "focallength".data,
   "aperture".data, "shutterspeed".data, "iso".data]

/-- EXIF bucket keywords of organize_metadata. -/
def exifWords : List (List Char) :=
  ["exif".data, "exposure".data, "metering".data, "whitebalance".data]

/-- Keyword of the IPTC bucket rule. -/
def kwIptc : List Char := "iptc".data

/-- Keyword of the XMP bucket rule. -/
def kwXmp : List Char := "xmp".data

/-- Keyword of the Composite bucket rule. -/
def kwComposite : List Char := "composite".data

/-- Keyword of the MakerNotes bucket rule and of makernote lines. -/
def kwMakernote : List Char := "makernote".data

/-- Image bucket keywords of organize_metadata. -/
def imageWords : List (List Char) :=
  ["width".data, "height".data, "resolution".data, "colorspace".data, "bitdepth".data]

/-- File bucket keywords of organize_metadata. -/
def fileWords : List (List Char) :=
  ["file".data, "directory".data, "filesize".data, "mimetype".data]

/-- Critical field keywords of extract_critical_info. -/
def kwGpslatitude : List Char := "gpslatitude".data

/-- Keyword gpslongitude. -/
def kwGpslongitude : List Char := "gpslongitude".data

/-- Keyword gpsaltitude. -/
def kwGpsaltitude : List Char := "gpsaltitude".data

/-- Keyword gpsposition. -/
def kwGpsposition : List Char := "gpsposition".data

/-- Keyword gpsdatestamp. -/
def kwGpsdatestamp : List Char := "gpsdatestamp".data

/-- Keyword gpstimestamp. -/
def kwGpstimestamp : List Char := "gpstimestamp".data

/-- Exclusion keyword ref of the three GPS value rules. -/
def kwRef : List Char := "ref".data

/-- Keyword make. -/
def kwMake : List Char := "make".data

/-- Keyword model. -/
def kwModel : List Char := "model".data

/-- Keyword camera. -/
def kwCamera : List Char := "camera".data

/-- Keyword lensmodel. -/
def kwLensmodel : List Char := "lensmodel".data

/-- Keyword lensid. -/
def kwLensid : List Char := "lensid".data

/-- Keyword serialnumber. -/
def kwSerialnumber : List Char := "serialnumber".data

/-- Keyword datetimeoriginal. -/
def kwDatetimeoriginal : List Char := "datetimeoriginal".data

/-- Keyword createdate. -/
def kwCreatedate : List Char := "createdate".data

/-- Keyword modifydate. -/
def kwModifydate : List Char := "modifydate".data

/-- Keyword software. -/
def kwSoftware : List Char := "software".data

/-- Keyword creatortool. -/
def kwCreatortool : List Char := "creatortool".data

/-- Keyword artist. -/
def kwArtist : List Char := "artist".data

/-- Keyword creator. -/
def kwCreator : List Char := "creator".data

/-- Keyword copyright. -/
def kwCopyright : List Char := "copyright".data

/-- Keyword ownername. -/
def kwOwnername : List Char := "ownername".data

/-- The ten category buckets of organize_metadata. -/
inductive Category where
  | GPS | Camera | Image | File | EXIF | IPTC | XMP | Composite | MakerNotes | Other
deriving DecidableEq

/-- The if and elif chain of organize_metadata, lines 133 to 152 of the
source: the category a single line is appended to, first match wins. -/
def categorize (line : List Char) : Category :=
  if containsSub kwGps (pyLower line) then Category.GPS
  else if containsAny cameraWords (pyLower line) then Category.Camera
  else if containsAny exifWords (pyLower line) then Category.EXIF
  else if containsSub kwIptc (pyLower line) then Category.IPTC
  else if containsSub kwXmp (pyLower line) then Category.XMP
  else if containsSub kwComposite (pyLower line) then Category.Composite
  else if containsSub kwMakernote (pyLower line) then Category.MakerNotes
  else if containsAny imageWords (pyLower line) then Category.Image
  else if containsAny fileWords (pyLower line) then Category.File
  else Category.Other

/-- The guard of the organize_metadata loop: a line is kept exactly when its
strip is non empty and it contains a colon (the source skips the line when
not line.strip() or the colon is absent). -/
def keptLine (line : List Char) : Bool :=
  !(pyStrip line).isEmpty && containsChar line ':'

/-- One iteration of the organize_metadata loop: skip the line when the
guard rejects it, otherwise append it to the bucket chosen by the chain. -/
def organizeStep (cats : Category → List (List Char)) (line : List Char) :
    Category → List (List Char) :=
  if keptLine line = false then cats
  else fun c => if c = categorize line then cats c ++ [line] else cats c

/-- Embedding of organize_metadata: buckets start empty and the loop runs
over metadata.split on newline; an empty metadata text returns the empty
buckets directly, as the falsy guard of the source does. -/
def organize_metadata (metadata : List Char) : Category → List (List Char) :=
  if metadata.isEmpty then fun _ => []
  else (pySplit '\n' metadata).foldl organizeStep (fun _ => [])

/-- The gps sub dictionary of the critical record. -/
structure GpsC where
  latitude : Option (List Char)
  longitude : Option (List Char)
  altitude : Option (List Char)
  position : Option (List Char)
  date : Option (List Char)
  time : Option (List Char)
deriving DecidableEq

/-- The camera sub dictionary of the critical record. -/
structure CameraC where
  make : Option (List Char)
  model : Option (List Char)
  lens : Option (List Char)
  serial : Option (List Char)
deriving DecidableEq

/-- The datetime sub dictionary of the critical record. -/
structure DateTimeC where
  original : Option (List Char)
  created : Option (List Char)
  modified : Option (List Char)
deriving DecidableEq

/-- The software sub dictionary of the critical record. -/
structure SoftwareC where
  software : Option (List Char)
  creator : Option (List Char)
deriving DecidableEq

/-- The owner sub dictionary of the critical record. -/
structure OwnerC where
  artist : Option (List Char)
  copyright : Option (List Char)
  owner : Option (List Char)
deriving DecidableEq

/-- The critical dictionary of extract_critical_info. -/
structure Critical where
  gps : GpsC
  camera : CameraC
  datetime : DateTimeC
  software : SoftwareC
  owner : OwnerC
deriving DecidableEq

/-- The initial critical dictionary with every field absent. -/
def emptyCritical : Critical :=
  { gps := { latitude := none, longitude := none, altitude := none,
             position := none, date := none, time := none },
    camera := { make := none, model := none, lens := none, serial := none },
    datetime := { original := none, created := none, modified := none },
    software := { software := none, creator := none },
    owner := { artist := none, copyright := none, owner := none } }

/-- One iteration of the extract_critical_info loop, lines 169 to 225 of the
source: skip the line when it has no colon, otherwise run the single if and
elif chain of keyword rules and update at most the one matching field. -/
def criticalStep (st : Critical) (line : List Char) : Critical :=
  if containsChar line ':' = false then st
  else if containsSub kwGpslatitude (lineLower line)
          && !(containsSub kwRef (lineLower line)) then
    { st with gps := { st.gps with latitude := some (lineValue line) } }
  else if containsSub kwGpslongitude (lineLower line)
          && !(containsSub kwRef (lineLower line)) then
    { st with gps := { st.gps with longitude := some (lineValue line) } }
  else if containsSub kwGpsaltitude (lineLower line)
          && !(containsSub kwRef (lineLower line)) then
    { st with gps := { st.gps with altitude := some (lineValue line) } }
  else if containsSub kwGpsposition (lineLower line) then
    { st with gps := { st.gps with position := some (lineValue line) } }
  else if containsSub kwGpsdatestamp (lineLower line) then
    { st with gps := { st.gps with date := some (lineValue line) } }
  else if containsSub kwGpstimestamp (lineLower line) then
    { st with gps := { st.gps with time := some (lineValue line) } }
  else if containsSub kwMake (lineLower line)
          && !(containsSub kwModel (lineLower line)) then
    { st with camera := { st.camera with make := some (lineValue line) } }
  else if containsSub kwModel (lineLower line)
          && containsSub kwCamera (lineLower line) then
    { st with camera := { st.camera with model := some (lineValue line) } }
  else if containsSub kwLensmodel (lineLower line)
          || containsSub kwLensid (lineLower line) then
    { st with camera := { st.camera with lens := some (lineValue line) } }
  else if containsSub kwSerialnumber (lineLower line) then
    { st with camera := { st.camera with serial := some (lineValue line) } }
  else if containsSub kwDatetimeoriginal (lineLower line) then
    { st with datetime := { st.datetime with original := some (lineValue line) } }
  else if containsSub kwCreatedate (lineLower line) then
    { st with datetime := { st.datetime with created := some (lineValue line) } }
  else if containsSub kwModifydate (lineLower line) then
    { st with datetime := { st.datetime with modified := some (lineValue line) } }
  else if containsSub kwSoftware (lineLower line) then
    { st with software := { st.software with software := some (lineValue line) } }
  else if containsSub kwCreatortool (lineLower line) then
    { st with software := { st.software with creator := some (lineValue line) } }
  else if containsSub kwArtist (lineLower line)
          || containsSub kwCreator (lineLower line) then
    { st with owner := { st.owner with artist := some (lineValue line) } }
  else if containsSub kwCopyright (lineLower line) then
    { st with owner := { st.owner with copyright := some (lineValue line) } }
  else if containsSub kwOwnername (lineLower line) then
    { st with owner := { st.owner with owner := some (lineValue line) } }
  else st

/-- Embedding of extract_critical_info: the loop over metadata.split on
newline starting from the empty critical record; an empty metadata text
returns the empty record directly, as the falsy guard of the source does. -/
def extract_critical_info (metadata : List Char) : Critical :=
  if metadata.isEmpty then emptyCritical
  else (pySplit '\n' metadata).foldl criticalStep emptyCritical

/-- The fixed base of the Google Maps address printed by display_metadata. -/
def mapsUrlBase : List Char := "https://www.google.com/maps?q=".data

/-- The map link fragment of display_metadata, lines 260 to 262 of the
source: when the critical gps position is present, its spaces are removed
and the result is appended to the fixed maps address. -/
def google_maps_link (critical : Critical) : Option (List Char) :=
  match critical.gps.position with
  | some pos => some (mapsUrlBase ++ pos.filter (fun c => !(c = ' ')))
  | none => none

/-- Names of the eighteen critical field slots. -/
inductive CritKey where
  | gLat | gLon | gAlt | gPos | gDate | gTime
  | cMake | cModel | cLens | cSerial
  | dOrig | dCreate | dModify
  | sSoft | sCreator
  | oArtist | oCopy | oOwner
deriving DecidableEq

/-- Reads one critical field slot of a critical record. -/
def getSlot (k : CritKey) (st : Critical) : Option (List Char) :=
  match k with
  | CritKey.gLat => st.gps.latitude
  | CritKey.gLon => st.gps.longitude
  | CritKey.gAlt => st.gps.altitude
  | CritKey.gPos => st.gps.position
  | CritKey.gDate => st.gps.date
  | CritKey.gTime => st.gps.time
  | CritKey.cMake => st.camera.make
  | CritKey.cModel => st.camera.model
  | CritKey.cLens => st.camera.lens
  | CritKey.cSerial => st.camera.serial
  | CritKey.dOrig => st.datetime.original
  | CritKey.dCreate => st.datetime.created
  | CritKey.dModify => st.datetime.modified
  | CritKey.sSoft => st.software.software
  | CritKey.sCreator => st.software.creator
  | CritKey.oArtist => st.owner.artist
  | CritKey.oCopy => st.owner.copyright
  | CritKey.oOwner => st.owner.owner

/-- Left biased choice on optional values. -/
def oor : Option (List Char) → Option (List Char) → Option (List Char)
  | some v, _ => some v
  | none, b => b

/-- The slot chosen by the keyword chain of extract_critical_info for one
line, none when the line is skipped or matches no rule; same guard and
same conditions, in the same order, as criticalStep. -/
def writtenKey (line : List Char) : Option CritKey :=
  if containsChar line ':' = false then none
  else if containsSub kwGpslatitude (lineLower line)
          && !(containsSub kwRef (lineLower line)) then some CritKey.gLat
  else if containsSub kwGpslongitude (lineLower line)
          && !(containsSub kwRef (lineLower line)) then some CritKey.gLon
  else if containsSub kwGpsaltitude (lineLower line)
          && !(containsSub kwRef (lineLower line)) then some CritKey.gAlt
  else if containsSub kwGpsposition (lineLower line) then some CritKey.gPos
  else if containsSub kwGpsdatestamp (lineLower line) then some CritKey.gDate
  else if containsSub kwGpstimestamp (lineLower line) then some CritKey.gTime
  else if containsSub kwMake (lineLower line)
          && !(containsSub kwModel (lineLower line)) then some CritKey.cMake
  else if containsSub kwModel (lineLower line)
          && containsSub kwCamera (lineLower line) then some CritKey.cModel
  else if containsSub kwLensmodel (lineLower line)
          || containsSub kwLensid (lineLower line) then some CritKey.cLens
  else if containsSub kwSerialnumber (lineLower line) then some CritKey.cSerial
  else if containsSub kwDatetimeoriginal (lineLower line) then some CritKey.dOrig
  else if containsSub kwCreatedate (lineLower line) then some CritKey.dCreate
  else if containsSub kwModifydate (lineLower line) then some CritKey.dModify
  else if containsSub kwSoftware (lineLower line) then some CritKey.sSoft
  else if containsSub kwCreatortool (lineLower line) then some CritKey.sCreator
  else if containsSub kwArtist (lineLower line)
          || containsSub kwCreator (lineLower line) then some CritKey.oArtist
  else if containsSub kwCopyright (lineLower line) then some CritKey.oCopy
  else if containsSub kwOwnername (lineLower line) then some CritKey.oOwner
  else none

/-- Assignment of one critical field slot, the right hand sides of the
chain of extract_critical_info; none leaves the record unchanged. -/
def applyWrite : Option CritKey → List Char → Critical → Critical
  | none, _, st => st
  | some CritKey.gLat, v, st => { st with gps := { st.gps with latitude := some v } }
  | some CritKey.gLon, v, st => { st with gps := { st.gps with longitude := some v } }
  | some CritKey.gAlt, v, st => { st with gps := { st.gps with altitude := some v } }
  | some CritKey.gPos, v, st => { st with gps := { st.gps with position := some v } }
  | some CritKey.gDate, v, st => { st with gps := { st.gps with date := some v } }
  | some CritKey.gTime, v, st => { st with gps := { st.gps with time := some v } }
  | some CritKey.cMake, v, st => { st with camera := { st.camera with make := some v } }
  | some CritKey.cModel, v, st => { st with camera := { st.camera with model := some v } }
  | some CritKey.cLens, v, st => { st with camera := { st.camera with lens := some v } }
  | some CritKey.cSerial, v, st => { st with camera := { st.camera with serial := some v } }
  | some CritKey.dOrig, v, st => { st with datetime := { st.datetime with original := some v } }
  | some CritKey.dCreate, v, st => { st with datetime := { st.datetime with created := some v } }
  | some CritKey.dModify, v, st => { st with datetime := { st.datetime with modified := some v } }
  | some CritKey.sSoft, v, st => { st with software := { st.software with software := some v } }
  | some CritKey.sCreator, v, st => { st with software := { st.software with creator := some v } }
  | some CritKey.oArtist, v, st => { st with owner := { st.owner with artist := some v } }
  | some CritKey.oCopy, v, st => { st with owner := { st.owner with copyright := some v } }
  | some CritKey.oOwner, v, st => { st with owner := { st.owner with owner := some v } }

theorem criticalStep_eq_applyWrite (st : Critical) (line : List Char) :
    criticalStep st line = applyWrite (writtenKey line) (lineValue line) st := by
  unfold criticalStep writtenKey
  by_cases h0 : containsChar line ':' = false
  · rw [if_pos h0, if_pos h0]; rfl
  · rw [if_neg h0, if_neg h0]
    by_cases h1 : (containsSub kwGpslatitude (lineLower line) && !(containsSub kwRef (lineLower line))) = true
    · rw [if_pos h1, if_pos h1]; rfl
    · rw [if_neg h1, if_neg h1]
      by_cases h2 : (containsSub kwGpslongitude (lineLower line) && !(containsSub kwRef (lineLower line))) = true
      · rw [if_pos h2, if_pos h2]; rfl
      · rw [if_neg h2, if_neg h2]
        by_cases h3 : (containsSub kwGpsaltitude (lineLower line) && !(containsSub kwRef (lineLower line))) = true
        · rw [if_pos h3, if_pos h3]; rfl
        · rw [if_neg h3, if_neg h3]
          by_cases h4 : containsSub kwGpsposition (lineLower line) = true
          · rw [if_pos h4, if_pos h4]; rfl
          · rw [if_neg h4, if_neg h4]
            by_cases h5 : containsSub kwGpsdatestamp (lineLower line) = true
            · rw [if_pos h5, if_pos h5]; rfl
            · rw [if_neg h5, if_neg h5]
              by_cases h6 : containsSub kwGpstimestamp (lineLower line) = true
              · rw [if_pos h6, if_pos h6]; rfl
              · rw [if_neg h6, if_neg h6]
                by_cases h7 : (containsSub kwMake (lineLower line) && !(containsSub kwModel (lineLower line))) = true
                · rw [if_pos h7, if_pos h7]; rfl
                · rw [if_neg h7, if_neg h7]
                  by_cases h8 : (containsSub kwModel (lineLower line) && containsSub kwCamera (lineLower line)) = true
                  · rw [if_pos h8, if_pos h8]; rfl
                  · rw [if_neg h8, if_neg h8]
                    by_cases h9 : (containsSub kwLensmodel (lineLower line) || containsSub kwLensid (lineLower line)) = true
                    · rw [if_pos h9, if_pos h9]; rfl
                    · rw [if_neg h9, if_neg h9]
                      by_cases h10 : containsSub kwSerialnumber (lineLower line) = true
                      · rw [if_pos h10, if_pos h10]; rfl
                      · rw [if_neg h10, if_neg h10]
                        by_cases h11 : containsSub kwDatetimeoriginal (lineLower line) = true
                        · rw [if_pos h11, if_pos h11]; rfl
                        · rw [if_neg h11, if_neg h11]
                          by_cases h12 : containsSub kwCreatedate (lineLower line) = true
                          · rw [if_pos h12, if_pos h12]; rfl
                          · rw [if_neg h12, if_neg h12]
                            by_cases h13 : containsSub kwModifydate (lineLower line) = true
                            · rw [if_pos h13, if_pos h13]; rfl
                            · rw [if_neg h13, if_neg h13]
                              by_cases h14 : containsSub kwSoftware (lineLower line) = true
                              · rw [if_pos h14, if_pos h14]; rfl
                              · rw [if_neg h14, if_neg h14]
                                by_cases h15 : containsSub kwCreatortool (lineLower line) = true
                                · rw [if_pos h15, if_pos h15]; rfl
                                · rw [if_neg h15, if_neg h15]
                                  by_cases h16 : (containsSub kwArtist (lineLower line) || containsSub kwCreator (lineLower line)) = true
                                  · rw [if_pos h16, if_pos h16]; rfl
                                  · rw [if_neg h16, if_neg h16]
                                    by_cases h17 : containsSub kwCopyright (lineLower line) = true
                                    · rw [if_pos h17, if_pos h17]; rfl
                                    · rw [if_neg h17, if_neg h17]
                                      by_cases h18 : containsSub kwOwnername (lineLower line) = true
                                      · rw [if_pos h18, if_pos h18]; rfl
                                      · rw [if_neg h18, if_neg h18]; rfl

theorem getSlot_applyWrite_none (v : List Char) (st : Critical) (k : CritKey) :
    getSlot k (applyWrite none v st) = getSlot k st := rfl

theorem getSlot_applyWrite_some (w k : CritKey) (v : List Char) (st : Critical) :
    getSlot k (applyWrite (some w) v st)
      = if w = k then some v else getSlot k st := by
  cases w <;> cases k <;> rfl

/-- The value one loop iteration of extract_critical_info writes into a
given slot, none when it leaves the slot alone. -/
def stepWrite (k : CritKey) (line : List Char) : Option (List Char) :=
  if writtenKey line = some k then some (lineValue line) else none

theorem getSlot_criticalStep (st : Critical) (line : List Char) (k : CritKey) :
    getSlot k (criticalStep st line) = oor (stepWrite k line) (getSlot k st) := by
  rw [criticalStep_eq_applyWrite]
  unfold stepWrite
  cases hw : writtenKey line with
  | none =>
      rw [getSlot_applyWrite_none]
      rw [if_neg (fun hc => Option.noConfusion hc)]
      rfl
  | some w =>
      rw [getSlot_applyWrite_some]
      by_cases hwk : w = k
      · rw [if_pos hwk, if_pos (by rw [hwk])]
        rfl
      · rw [if_neg hwk, if_neg (fun hc => hwk (Option.some.inj hc))]
        rfl

theorem oor_assoc (a b c : Option (List Char)) :
    oor (oor a b) c = oor a (oor b c) := by
  cases a <;> rfl

/-- The write of the last line of the list that writes the given slot,
none when no line writes it. -/
def lastWrite (k : CritKey) : List (List Char) → Option (List Char)
  | [] => none
  | l :: ls => oor (lastWrite k ls) (stepWrite k l)

theorem foldl_critical (lines : List (List Char)) (st : Critical) (k : CritKey) :
    getSlot k (lines.foldl criticalStep st)
      = oor (lastWrite k lines) (getSlot k st) := by
  induction lines generalizing st with
  | nil => rfl
  | cons l ls ih =>
      rw [List.foldl_cons, ih, getSlot_criticalStep]
      show _ = oor (oor (lastWrite k ls) (stepWrite k l)) (getSlot k st)
      rw [oor_assoc]

/-- C4: for every metadata text and every critical field slot, the value
stored by extract_critical_info is exactly the write of the last line of
the text, in source appearance order, that populates that slot; so when
two lines populate the same critical field key, the later line wins. -/
theorem C4_last_write_wins (metadata : List Char) (k : CritKey) :
    getSlot k (extract_critical_info metadata)
      = lastWrite k (pySplit '\n' metadata) := by
  cases metadata with
  | nil => cases k <;> rfl
  | cons c cs =>
      unfold extract_critical_info
      rw [if_neg (by simp)]
      rw [foldl_critical]
      cases hl : lastWrite k (pySplit '\n' (c :: cs)) with
      | none => cases k <;> rfl
      | some v => rfl

theorem writtenKey_cases (line : List Char) (P : Option CritKey → Prop)
    (hnone : P none)
    (hgLat : (containsSub kwGpslatitude (lineLower line) && !(containsSub kwRef (lineLower line))) = true → P (some CritKey.gLat))
    (hgLon : (containsSub kwGpslongitude (lineLower line) && !(containsSub kwRef (lineLower line))) = true → P (some CritKey.gLon))
    (hgAlt : (containsSub kwGpsaltitude (lineLower line) && !(containsSub kwRef (lineLower line))) = true → P (some CritKey.gAlt))
    (hgPos : containsSub kwGpsposition (lineLower line) = true → P (some CritKey.gPos))
    (hgDate : containsSub kwGpsdatestamp (lineLower line) = true → P (some CritKey.gDate))
    (hgTime : containsSub kwGpstimestamp (lineLower line) = true → P (some CritKey.gTime))
    (hcMake : (containsSub kwMake (lineLower line) && !(containsSub kwModel (lineLower line))) = true → P (some CritKey.cMake))
    (hcModel : (containsSub kwModel (lineLower line) && containsSub kwCamera (lineLower line)) = true → P (some CritKey.cModel))
    (hcLens : (containsSub kwLensmodel (lineLower line) || containsSub kwLensid (lineLower line)) = true → P (some CritKey.cLens))
    (hcSerial : containsSub kwSerialnumber (lineLower line) = true → P (some CritKey.cSerial))
    (hdOrig : containsSub kwDatetimeoriginal (lineLower line) = true → P (some CritKey.dOrig))
    (hdCreate : containsSub kwCreatedate (lineLower line) = true → P (some CritKey.dCreate))
    (hdModify : containsSub kwModifydate (lineLower line) = true → P (some CritKey.dModify))
    (hsSoft : containsSub kwSoftware (lineLower line) = true → P (some CritKey.sSoft))
    (hsCreator : containsSub kwCreatortool (lineLower line) = true → P (some CritKey.sCreator))
    (hoArtist : (containsSub kwArtist (lineLower line) || containsSub kwCreator (lineLower line)) = true → P (some CritKey.oArtist))
    (hoCopy : containsSub kwCopyright (lineLower line) = true → P (some CritKey.oCopy))
    (hoOwner : containsSub kwOwnername (lineLower line) = true → P (some CritKey.oOwner))
    : P (writtenKey line) := by
  unfold writtenKey
  by_cases h0 : containsChar line ':' = false
  · rw [if_pos h0]; exact hnone
  · rw [if_neg h0]
    by_cases g0 : (containsSub kwGpslatitude (lineLower line) && !(containsSub kwRef (lineLower line))) = true
    · rw [if_pos g0]; exact hgLat g0
    · rw [if_neg g0]
      by_cases g1 : (containsSub kwGpslongitude (lineLower line) && !(containsSub kwRef (lineLower line))) = true
      · rw [if_pos g1]; exact hgLon g1
      · rw [if_neg g1]
        by_cases g2 : (containsSub kwGpsaltitude (lineLower line) && !(containsSub kwRef (lineLower line))) = true
        · rw [if_pos g2]; exact hgAlt g2
        · rw [if_neg g2]
          by_cases g3 : containsSub kwGpsposition (lineLower line) = true
          · rw [if_pos g3]; exact hgPos g3
          · rw [if_neg g3]
            by_cases g4 : containsSub kwGpsdatestamp (lineLower line) = true
            · rw [if_pos g4]; exact hgDate g4
            · rw [if_neg g4]
              by_cases g5 : containsSub kwGpstimestamp (lineLower line) = true
              · rw [if_pos g5]; exact hgTime g5
              · rw [if_neg g5]
                by_cases g6 : (containsSub kwMake (lineLower line) && !(containsSub kwModel (lineLower line))) = true
                · rw [if_pos g6]; exact hcMake g6
                · rw [if_neg g6]
                  by_cases g7 : (containsSub kwModel (lineLower line) && containsSub kwCamera (lineLower line)) = true
                  · rw [if_pos g7]; exact hcModel g7
                  · rw [if_neg g7]
                    by_cases g8 : (containsSub kwLensmodel (lineLower line) || containsSub kwLensid (lineLower line)) = true
                    · rw [if_pos g8]; exact hcLens g8
                    · rw [if_neg g8]
                      by_cases g9 : containsSub kwSerialnumber (lineLower line) = true
                      · rw [if_pos g9]; exact hcSerial g9
                      · rw [if_neg g9]
                        by_cases g10 : containsSub kwDatetimeoriginal (lineLower line) = true
                        · rw [if_pos g10]; exact hdOrig g10
                        · rw [if_neg g10]
                          by_cases g11 : containsSub kwCreatedate (lineLower line) = true
                          · rw [if_pos g11]; exact hdCreate g11
                          · rw [if_neg g11]
                            by_cases g12 : containsSub kwModifydate (lineLower line) = true
                            · rw [if_pos g12]; exact hdModify g12
                            · rw [if_neg g12]
                              by_cases g13 : containsSub kwSoftware (lineLower line) = true
                              · rw [if_pos g13]; exact hsSoft g13
                              · rw [if_neg g13]
                                by_cases g14 : containsSub kwCreatortool (lineLower line) = true
                                · rw [if_pos g14]; exact hsCreator g14
                                · rw [if_neg g14]
                                  by_cases g15 : (containsSub kwArtist (lineLower line) || containsSub kwCreator (lineLower line)) = true
                                  · rw [if_pos g15]; exact hoArtist g15
                                  · rw [if_neg g15]
                                    by_cases g16 : containsSub kwCopyright (lineLower line) = true
                                    · rw [if_pos g16]; exact hoCopy g16
                                    · rw [if_neg g16]
                                      by_cases g17 : containsSub kwOwnername (lineLower line) = true
                                      · rw [if_pos g17]; exact hoOwner g17
                                      · rw [if_neg g17]; exact hnone

theorem stepWrite_of_ne (line : List Char) (k : CritKey)
    (h : writtenKey line ≠ some k) : stepWrite k line = none := by
  unfold stepWrite
  rw [if_neg h]

theorem stepWrite_of_eq (line : List Char) (k : CritKey)
    (h : writtenKey line = some k) : stepWrite k line = some (lineValue line) := by
  unfold stepWrite
  rw [if_pos h]

/-- C2: splitting a line on the separator happens at the first occurrence
only: when the key part has no colon, the key and value recovered from
key colon value are exactly the key and the value, and the stripped
critical field value extracted from the line is the stripped value, even
when the value itself contains further separators. -/
theorem C2_first_occurrence_split (k v : List Char)
    (hk : containsChar k ':' = false) :
    beforeFirstSep ':' (k ++ ':' :: v) = k
    ∧ afterFirstSep ':' (k ++ ':' :: v) = v
    ∧ lineValue (k ++ ':' :: v) = pyStrip v := by
  induction k with
  | nil => exact ⟨rfl, rfl, rfl⟩
  | cons a as ih =>
      have hac : ¬ a = ':' := by
        intro ha
        rw [containsChar, if_pos ha] at hk
        exact Bool.noConfusion hk
      have h2 : containsChar as ':' = false := by
        rw [containsChar, if_neg hac] at hk
        exact hk
      obtain ⟨ihb, iha, ihv⟩ := ih h2
      refine ⟨?_, ?_, ?_⟩
      · rw [List.cons_append, beforeFirstSep, if_neg hac, ihb]
      · rw [List.cons_append, afterFirstSep, if_neg hac, iha]
      · rw [lineValue, List.cons_append, afterFirstSep, if_neg hac, iha]

/-- Concrete key of the C2 witness. -/
def c2Key : List Char := "GPSPosition".data

/-- Concrete value of the C2 witness; it contains the separator itself. -/
def c2Val : List Char := " 37.8:-122.4".data

/-- C2 witness: the first occurrence property at a concrete line whose
value part contains another separator. -/
theorem C2_first_occurrence_split_witness :
    beforeFirstSep ':' (c2Key ++ ':' :: c2Val) = c2Key
    ∧ afterFirstSep ':' (c2Key ++ ':' :: c2Val) = c2Val
    ∧ lineValue (c2Key ++ ':' :: c2Val) = pyStrip c2Val :=
  C2_first_occurrence_split c2Key c2Val (by decide)

theorem writtenKey_ref_excl (line : List Char)
    (href : containsSub kwRef (lineLower line) = true) :
    writtenKey line ≠ some CritKey.gLat
    ∧ writtenKey line ≠ some CritKey.gLon
    ∧ writtenKey line ≠ some CritKey.gAlt := by
  refine writtenKey_cases line
    (fun o => o ≠ some CritKey.gLat ∧ o ≠ some CritKey.gLon ∧ o ≠ some CritKey.gAlt)
    (by decide) ?_ ?_ ?_ (fun _ => by decide) (fun _ => by decide) (fun _ => by decide)
    (fun _ => by decide) (fun _ => by decide) (fun _ => by decide) (fun _ => by decide)
    (fun _ => by decide) (fun _ => by decide) (fun _ => by decide) (fun _ => by decide)
    (fun _ => by decide) (fun _ => by decide) (fun _ => by decide) (fun _ => by decide)
  · intro hc
    rw [href] at hc
    simp at hc
  · intro hc
    rw [href] at hc
    simp at hc
  · intro hc
    rw [href] at hc
    simp at hc

/-- C3: a line that matches one of the three GPS value keywords but whose
lower form also contains the exclusion keyword ref does not populate any
of the three critical GPS values: latitude, longitude and altitude are
left exactly as they were, so a latitude reference line never overwrites
the latitude value. -/
theorem C3_ref_exclusion (st : Critical) (line : List Char)
    (hkw : (containsSub kwGpslatitude (lineLower line)
            || containsSub kwGpslongitude (lineLower line)
            || containsSub kwGpsaltitude (lineLower line)) = true)
    (href : containsSub kwRef (lineLower line) = true) :
    (criticalStep st line).gps.latitude = st.gps.latitude
    ∧ (criticalStep st line).gps.longitude = st.gps.longitude
    ∧ (criticalStep st line).gps.altitude = st.gps.altitude := by
  obtain ⟨n1, n2, n3⟩ := writtenKey_ref_excl line href
  have e1 := getSlot_criticalStep st line CritKey.gLat
  have e2 := getSlot_criticalStep st line CritKey.gLon
  have e3 := getSlot_criticalStep st line CritKey.gAlt
  rw [stepWrite_of_ne line CritKey.gLat n1] at e1
  rw [stepWrite_of_ne line CritKey.gLon n2] at e2
  rw [stepWrite_of_ne line CritKey.gAlt n3] at e3
  exact ⟨e1, e2, e3⟩

/-- Concrete latitude reference line of the C3 witness. -/
def refLine : List Char := "[GPS]           GPSLatitudeRef                  : N".data

/-- Concrete starting record of the C3 witness, with a latitude present. -/
def c3State : Critical :=
  { emptyCritical with gps := { emptyCritical.gps with latitude := some "37.8".data } }

/-- C3 witness: a concrete latitude reference line leaves the stored
latitude, longitude and altitude of a concrete record untouched. -/
theorem C3_ref_exclusion_witness :
    (criticalStep c3State refLine).gps.latitude = c3State.gps.latitude
    ∧ (criticalStep c3State refLine).gps.longitude = c3State.gps.longitude
    ∧ (criticalStep c3State refLine).gps.altitude = c3State.gps.altitude :=
  C3_ref_exclusion c3State refLine (by decide) (by decide)

theorem startsWithL_trans {a b c : List Char}
    (hab : startsWithL a b = true) (hbc : startsWithL b c = true) :
    startsWithL a c = true := by
  induction a generalizing b c with
  | nil => rfl
  | cons x xs ih =>
      cases b with
      | nil => exact absurd hab (by rw [startsWithL]; exact fun hc => Bool.noConfusion hc)
      | cons y ys =>
          cases c with
          | nil => exact absurd hbc (by rw [startsWithL]; exact fun hc => Bool.noConfusion hc)
          | cons z zs =>
              rw [startsWithL] at hab hbc ⊢
              by_cases hxy : x = y
              · rw [if_pos hxy] at hab
                by_cases hyz : y = z
                · rw [if_pos hyz] at hbc
                  rw [if_pos (hxy.trans hyz)]
                  exact ih hab hbc
                · rw [if_neg hyz] at hbc
                  exact Bool.noConfusion hbc
              · rw [if_neg hxy] at hab
                exact Bool.noConfusion hab

theorem containsSub_mono (n1 n2 hay : List Char)
    (h12 : startsWithL n1 n2 = true) (h2 : containsSub n2 hay = true) :
    containsSub n1 hay = true := by
  induction hay with
  | nil =>
      rw [containsSub] at h2 ⊢
      cases n2 with
      | nil =>
          cases n1 with
          | nil => rfl
          | cons a as => exact absurd h12 (by rw [startsWithL]; exact fun hc => Bool.noConfusion hc)
      | cons b bs => exact absurd h2 (by rw [List.isEmpty_cons]; exact fun hc => Bool.noConfusion hc)
  | cons c rest ih =>
      rw [containsSub] at h2 ⊢
      simp only [Bool.or_eq_true] at h2 ⊢
      rcases h2 with h | h
      · exact Or.inl (startsWithL_trans h12 h)
      · exact Or.inr (ih h)

/-- C10: one loop iteration of extract_critical_info updates at most one
critical field slot, because the keyword rules form a single if and elif
chain; and a line with a colon whose lower form contains makernote but
not model, and which matches none of the six GPS rules, populates exactly
the camera make slot with the line value, through the make keyword that
occurs inside makernote, and changes no other slot. -/
theorem C10_single_slot_per_line (st : Critical) (line : List Char) :
    (∀ k1 k2 : CritKey,
        getSlot k1 (criticalStep st line) ≠ getSlot k1 st →
        getSlot k2 (criticalStep st line) ≠ getSlot k2 st → k1 = k2)
    ∧ (containsChar line ':' = true →
       containsSub kwMakernote (lineLower line) = true →
       containsSub kwModel (lineLower line) = false →
       (containsSub kwGpslatitude (lineLower line)
          && !(containsSub kwRef (lineLower line))) = false →
       (containsSub kwGpslongitude (lineLower line)
          && !(containsSub kwRef (lineLower line))) = false →
       (containsSub kwGpsaltitude (lineLower line)
          && !(containsSub kwRef (lineLower line))) = false →
       containsSub kwGpsposition (lineLower line) = false →
       containsSub kwGpsdatestamp (lineLower line) = false →
       containsSub kwGpstimestamp (lineLower line) = false →
       getSlot CritKey.cMake (criticalStep st line) = some (lineValue line)
       ∧ ∀ k : CritKey, k ≠ CritKey.cMake →
           getSlot k (criticalStep st line) = getSlot k st) := by
  constructor
  · intro k1 k2 h1 h2
    rw [getSlot_criticalStep] at h1 h2
    cases hw : writtenKey line with
    | none =>
        have hn1 : writtenKey line ≠ some k1 := by
          rw [hw]; exact fun hc => Option.noConfusion hc
        rw [stepWrite_of_ne line k1 hn1] at h1
        exact absurd rfl h1
    | some w =>
        by_cases hk1 : w = k1
        · by_cases hk2 : w = k2
          · rw [← hk1, ← hk2]
          · have hn2 : writtenKey line ≠ some k2 := by
              rw [hw]; exact fun hc => hk2 (Option.some.inj hc)
            rw [stepWrite_of_ne line k2 hn2] at h2
            exact absurd rfl h2
        · have hn1 : writtenKey line ≠ some k1 := by
            rw [hw]; exact fun hc => hk1 (Option.some.inj hc)
          rw [stepWrite_of_ne line k1 hn1] at h1
          exact absurd rfl h1
  · intro hcolon hmn hmo hg1 hg2 hg3 hg4 hg5 hg6
    have hmake : containsSub kwMake (lineLower line) = true :=
      containsSub_mono kwMake kwMakernote (lineLower line) (by decide) hmn
    have hw : writtenKey line = some CritKey.cMake := by
      unfold writtenKey
      rw [if_neg (by simp [hcolon]), if_neg (by simp [hg1]), if_neg (by simp [hg2]),
          if_neg (by simp [hg3]), if_neg (by simp [hg4]), if_neg (by simp [hg5]),
          if_neg (by simp [hg6]), if_pos (by simp [hmake, hmo])]
    constructor
    · rw [getSlot_criticalStep, stepWrite_of_eq line CritKey.cMake hw]
      rfl
    · intro k hkk
      have hnk : writtenKey line ≠ some k := by
        rw [hw]; exact fun hc => hkk (Option.some.inj hc).symm
      rw [getSlot_criticalStep, stepWrite_of_ne line k hnk]
      rfl

/-- Concrete makernote line of the C10 witness. -/
def mkLine : List Char := "[MakerNotes]    MakerNoteVersion                : 2".data

/-- C10 witness: on a concrete makernote line the step writes the camera
make slot with the line value, leaves the latitude slot alone, and the
only changed slot pair collapses to a single key. -/
theorem C10_single_slot_per_line_witness :
    getSlot CritKey.cMake (criticalStep emptyCritical mkLine) = some (lineValue mkLine)
    ∧ getSlot CritKey.gLat (criticalStep emptyCritical mkLine) = getSlot CritKey.gLat emptyCritical
    ∧ CritKey.cMake = CritKey.cMake :=
  ⟨((C10_single_slot_per_line emptyCritical mkLine).2 (by decide) (by decide) (by decide)
      (by decide) (by decide) (by decide) (by decide) (by decide) (by decide)).1,
   ((C10_single_slot_per_line emptyCritical mkLine).2 (by decide) (by decide) (by decide)
      (by decide) (by decide) (by decide) (by decide) (by decide) (by decide)).2
     CritKey.gLat (by decide),
   (C10_single_slot_per_line emptyCritical mkLine).1 CritKey.cMake CritKey.cMake
     (by decide) (by decide)⟩

/-- Modelled from the spec wording of the classifier: the ordered list of
predicate and category pairs, in the stated priority order GPS, Camera,
EXIF, IPTC, XMP, Composite, MakerNotes, Image, File; the trailing Other
bucket is the catch all of firstMatchCat. -/
def specRuleList : List ((List Char → Bool) × Category) :=
  [ (fun l => containsSub kwGps (pyLower l), Category.GPS),
    (fun l => containsAny cameraWords (pyLower l), Category.Camera),
    (fun l => containsAny exifWords (pyLower l), Category.EXIF),
    (fun l => containsSub kwIptc (pyLower l), Category.IPTC),
    (fun l => containsSub kwXmp (pyLower l), Category.XMP),
    (fun l => containsSub kwComposite (pyLower l), Category.Composite),
    (fun l => containsSub kwMakernote (pyLower l), Category.MakerNotes),
    (fun l => containsAny imageWords (pyLower l), Category.Image),
    (fun l => containsAny fileWords (pyLower l), Category.File) ]

/-- First matching rule of an ordered rule list; Other when no rule
matches. -/
def firstMatchCat : List ((List Char → Bool) × Category) → List Char → Category
  | [], _ => Category.Other
  | r :: rest, line => if r.1 line then r.2 else firstMatchCat rest line

theorem categorize_eq_firstMatch (line : List Char) :
    categorize line = firstMatchCat specRuleList line := rfl

theorem mem_organizeStep (acc : Category → List (List Char))
    (l line : List Char) (c : Category) :
    line ∈ (organizeStep acc l) c ↔
      line ∈ acc c ∨ (line = l ∧ keptLine l = true ∧ categorize l = c) := by
  unfold organizeStep
  cases hkl : keptLine l with
  | false => simp [hkl]
  | true =>
      rw [if_neg (by simp)]
      by_cases hc : c = categorize l
      · subst hc
        rw [if_pos rfl]
        simp only [List.mem_append, List.mem_singleton]
        constructor
        · rintro (h | h)
          · exact Or.inl h
          · exact Or.inr ⟨h, by trivial, by trivial⟩
        · rintro (h | ⟨h, -, -⟩)
          · exact Or.inl h
          · exact Or.inr h
      · rw [if_neg hc]
        constructor
        · exact fun h => Or.inl h
        · rintro (h | ⟨-, -, hcat⟩)
          · exact h
          · exact absurd hcat.symm hc

theorem foldl_organize_mem (lines : List (List Char))
    (acc : Category → List (List Char)) (line : List Char) (c : Category) :
    line ∈ (lines.foldl organizeStep acc) c ↔
      line ∈ acc c ∨ (line ∈ lines ∧ keptLine line = true ∧ categorize line = c) := by
  induction lines generalizing acc with
  | nil => simp
  | cons l ls ih =>
      rw [List.foldl_cons, ih, mem_organizeStep, List.mem_cons]
      constructor
      · rintro ((h | ⟨rfl, h1, h2⟩) | ⟨h3, h4, h5⟩)
        · exact Or.inl h
        · exact Or.inr ⟨Or.inl rfl, h1, h2⟩
        · exact Or.inr ⟨Or.inr h3, h4, h5⟩
      · rintro (h | ⟨rfl | h3, h4, h5⟩)
        · exact Or.inl (Or.inl h)
        · exact Or.inl (Or.inr ⟨rfl, h4, h5⟩)
        · exact Or.inr ⟨h3, h4, h5⟩

/-- C1: a line of the extraction output is in a bucket of
organize_metadata exactly when it is one of the split lines, survives the
guard (non empty after strip and holding a colon), and the bucket is the
first matching rule of the fixed priority order GPS, Camera, EXIF, IPTC,
XMP, Composite, MakerNotes, Image, File, Other; so every kept line lands
in exactly one bucket, deterministically, and the first match wins. -/
theorem C1_first_match_total (metadata line : List Char) (c : Category) :
    line ∈ organize_metadata metadata c ↔
      (line ∈ pySplit '\n' metadata ∧ keptLine line = true
        ∧ firstMatchCat specRuleList line = c) := by
  cases metadata with
  | nil =>
      constructor
      · intro h
        simp [organize_metadata] at h
      · rintro ⟨hmem, hkept, -⟩
        have hline : line = [] := by
          simp only [pySplit] at hmem
          simpa using hmem
        subst hline
        exact absurd hkept (by decide)
  | cons ch cs =>
      rw [organize_metadata, if_neg (by simp), foldl_organize_mem]
      simp only [List.not_mem_nil, false_or]
      constructor
      · rintro ⟨h1, h2, h3⟩
        exact ⟨h1, h2, by rw [← categorize_eq_firstMatch]; exact h3⟩
      · rintro ⟨h1, h2, h3⟩
        exact ⟨h1, h2, by rw [categorize_eq_firstMatch]; exact h3⟩

/-- The example line of the spec, with a space inside the key GPS Latitude. -/
def ex5Line : List Char :=
  "[GPS]       GPS Latitude  : 37 deg 48\x27 0.00\" N".data

/-- The same example line with the space free key GPSLatitude the tool is
run with (short tag names), which the keyword rule does match. -/
def ex5FixedLine : List Char :=
  "[GPS]       GPSLatitude   : 37 deg 48\x27 0.00\" N".data

/-- The coordinate value of the example line. -/
def ex5Value : List Char := "37 deg 48\x27 0.00\" N".data

/-- C5 counterexample: on the example line of the spec,
extract_critical_info stores nothing in the critical latitude field (the
claim asserts the coordinate value is stored); its key GPS Latitude holds
a space, so the substring gpslatitude never occurs in the lower form. -/
theorem C5_counterexample :
    (extract_critical_info ex5Line).gps.latitude = none := by decide

/-- C5 amended: the example line does land in the GPS bucket of
organize_metadata, but extract_critical_info leaves the critical latitude
unset for it; for the space free variant of the line the latitude is set
to the coordinate value. -/
theorem C5_amended_example :
    ex5Line ∈ organize_metadata ex5Line Category.GPS
    ∧ (extract_critical_info ex5Line).gps.latitude = none
    ∧ (extract_critical_info ex5FixedLine).gps.latitude = some ex5Value := by decide

/-- The example position line of the spec. -/
def ex6Line : List Char := "GPSPosition: 37.8,-122.4".data

/-- The rendered maps address the spec expects for the example. -/
def ex6Url : List Char := "https://www.google.com/maps?q=37.8,-122.4".data

/-- C6: on an input holding the example position line, the critical gps
position is the stripped coordinate pair and the presenter renders the
expected maps link: the position with spaces removed appended to the
fixed maps address. -/
theorem C6_position_map_link :
    (extract_critical_info ex6Line).gps.position = some "37.8,-122.4".data
    ∧ google_maps_link (extract_critical_info ex6Line) = some ex6Url := by decide

/-
  Model of the effectful control flow of the program.  File system state,
  the external tool and the report file write are abstracted into an
  environment of observable outcomes; the definitions mirror, branch by
  branch, check_dependencies, extract_metadata_detailed (lines 68 to 91),
  the save block of display_metadata (lines 314 to 344) and main
  (lines 423 to 473) of the source.
-/

/-- Abstract environment of one run: whether the dependency check passes,
whether the input path exists, whether the external tool exits zero, the
text it prints, whether saving was requested and whether the report file
write succeeds. -/
structure ExecEnv where
  deps_ok : Bool
  file_found : Bool
  tool_ok : Bool
  tool_out : List Char
  save_requested : Bool
  write_ok : Bool

/-- Outcome of extract_metadata_detailed: whether the external command was
invoked, and the returned text, none on failure. -/
structure ExtractOutcome where
  invoked : Bool
  output : Option (List Char)

/-- Embedding of extract_metadata_detailed: a missing file returns none
before the command runs; a non zero exit of the tool is the caught
CalledProcessError branch, which returns none after the invocation. -/
def extractRun (env : ExecEnv) : ExtractOutcome :=
  if env.file_found = false then { invoked := false, output := none }
  else if env.tool_ok then { invoked := true, output := some env.tool_out }
  else { invoked := true, output := none }

/-- Observable result of one whole run of main. -/
structure RunResult where
  invoked : Bool
  displayed : Bool
  report_saved : Bool
  save_error_reported : Bool
  exit_code : Nat

/-- Embedding of the control flow of main: failed dependency check exits
one; a missing path exits one before extraction; the truthiness test on
the returned metadata (line 468) fails both for no output and for empty
output, and both print the failure message and exit one; otherwise
display_metadata renders the metadata, and when saving was requested a
failed report write only prints an error message, caught by the try
block, and the run still exits zero. -/
def mainRun (env : ExecEnv) : RunResult :=
  if env.deps_ok = false then
    { invoked := false, displayed := false, report_saved := false,
      save_error_reported := false, exit_code := 1 }
  else if env.file_found = false then
    { invoked := false, displayed := false, report_saved := false,
      save_error_reported := false, exit_code := 1 }
  else
    match (extractRun env).output with
    | some out =>
        if out.isEmpty then
          { invoked := (extractRun env).invoked, displayed := false,
            report_saved := false, save_error_reported := false, exit_code := 1 }
        else if env.save_requested then
          if env.write_ok then
            { invoked := (extractRun env).invoked, displayed := true,
              report_saved := true, save_error_reported := false, exit_code := 0 }
          else
            { invoked := (extractRun env).invoked, displayed := true,
              report_saved := false, save_error_reported := true, exit_code := 0 }
        else
          { invoked := (extractRun env).invoked, displayed := true,
            report_saved := false, save_error_reported := false, exit_code := 0 }
    | none =>
        { invoked := (extractRun env).invoked, displayed := false,
          report_saved := false, save_error_reported := false, exit_code := 1 }

/-- C7: when the input path does not exist the run fails with exit code
one, the extractor returns no metadata, and the external command is never
invoked. -/
theorem C7_missing_file_no_invoke (env : ExecEnv)
    (h : env.file_found = false) :
    (extractRun env).invoked = false
    ∧ (extractRun env).output = none
    ∧ (mainRun env).invoked = false
    ∧ (mainRun env).exit_code = 1 := by
  cases hd : env.deps_ok <;>
    simp [extractRun, mainRun, h, hd]

/-- Environment of the C7 witness: the path is absent, everything else
would succeed. -/
def env7 : ExecEnv :=
  { deps_ok := true, file_found := false, tool_ok := true,
    tool_out := "[GPS] GPSLatitude: 37.8".data,
    save_requested := false, write_ok := true }

/-- C7 witness at a concrete environment. -/
theorem C7_missing_file_no_invoke_witness :
    (extractRun env7).invoked = false
    ∧ (extractRun env7).output = none
    ∧ (mainRun env7).invoked = false
    ∧ (mainRun env7).exit_code = 1 :=
  C7_missing_file_no_invoke env7 (by decide)

/-- C8: whenever the external tool exits non zero the extractor returns
no output, so no metadata is displayed, and the process exit code is the
non zero value one. -/
theorem C8_tool_failure_aborts (env : ExecEnv)
    (h : env.tool_ok = false) :
    (extractRun env).output = none
    ∧ (mainRun env).displayed = false
    ∧ (mainRun env).exit_code = 1 := by
  cases hd : env.deps_ok <;> cases hf : env.file_found <;>
    simp [extractRun, mainRun, h, hd, hf]

/-- Environment of the C8 witness: the tool fails, everything else is in
order. -/
def env8 : ExecEnv :=
  { deps_ok := true, file_found := true, tool_ok := false,
    tool_out := [], save_requested := false, write_ok := true }

/-- C8 witness at a concrete environment. -/
theorem C8_tool_failure_aborts_witness :
    (extractRun env8).output = none
    ∧ (mainRun env8).displayed = false
    ∧ (mainRun env8).exit_code = 1 :=
  C8_tool_failure_aborts env8 (by decide)

/-- C9: when extraction succeeded with some metadata text, saving was
requested and the report file write fails, the failure is only reported:
the metadata display is unaffected, no report is saved, and the run
still exits zero. -/
theorem C9_save_failure_nonfatal (env : ExecEnv)
    (hd : env.deps_ok = true) (hf : env.file_found = true)
    (ht : env.tool_ok = true) (hne : env.tool_out.isEmpty = false)
    (hs : env.save_requested = true) (hw : env.write_ok = false) :
    (mainRun env).displayed = true
    ∧ (mainRun env).report_saved = false
    ∧ (mainRun env).save_error_reported = true
    ∧ (mainRun env).exit_code = 0 := by
  simp [mainRun, extractRun, hd, hf, ht, hne, hs, hw]

/-- Environment of the C9 witness: a successful extraction whose report
write fails. -/
def env9 : ExecEnv :=
  { deps_ok := true, file_found := true, tool_ok := true,
    tool_out := "[GPS] GPSLatitude: 37.8".data,
    save_requested := true, write_ok := false }

/-- C9 witness at a concrete environment. -/
theorem C9_save_failure_nonfatal_witness :
    (mainRun env9).displayed = true
    ∧ (mainRun env9).report_saved = false
    ∧ (mainRun env9).save_error_reported = true
    ∧ (mainRun env9).exit_code = 0 :=
  C9_save_failure_nonfatal env9 (by decide) (by decide) (by decide) (by decide)
    (by decide) (by decide)
